import Mathlib

/-!
Verification of the DMS version-lifecycle and concurrency-control core.

This file gives a shallow embedding, in Lean 4, of the code in
src/backend/app/api/v1/document_versions.py, src/backend/app/api/v1/edit_locks.py,
src/backend/app/models (user, document, document_version, edit_lock, document_view)
and src/backend/app/core/document_utils.py, together with theorems settling the
stated claims about that code.

Modelling conventions:
  - Time (datetime.utcnow) is threaded explicitly as a natural number of seconds;
    timedelta(minutes=m) becomes m * 60.
  - The database session is a record of lists of rows; ORM queries with .first()
    become List.find?, in-place ORM mutation of a found row becomes update_first,
    db.delete becomes List.erase, db.add becomes appending to the list.
  - SHA-256 (compute_content_hash in app/core/document_utils.py) appears as an
    explicit function parameter called chash: none of the claims depend on its
    internals, only on equality of fingerprints.
  - verify_password lives in app/core/security.py, which is absent from the
    sources; it is modelled from the spec (section 6, Auth context: an external
    password verifier) as comparison of the supplied plaintext with the user's
    stored credential.
  - The signatory-token rewriting of content on submit and approve
    (update_all_signatory_tokens) appears as explicit String -> String function
    parameters: the claims only require that a content mutation happens there.
  - HTTPException raise sites become constructors of ApiError, one per distinct
    raise in the modelled endpoints, each remembering its HTTP status code via
    ApiError.http_status.
  - Each endpoint is a pure function from the database and the request data to
    Except ApiError (new database and result); on an error the database is
    returned unchanged by construction, which models the transaction rollback.
-/

namespace DMS

/-- Workflow states of a document version (class VersionStatus in
app/models/document_version.py). -/
inductive VersionStatus where
  | draft
  | underReview
  | pendingApproval
  | approved
  | effective
  | rejected
  | obsolete
  | archived
deriving DecidableEq, Repr

/-- Version change classification (class ChangeType in
app/models/document_version.py). -/
inductive ChangeType where
  | minor
  | major
deriving DecidableEq, Repr

/-- A system user (class User in app/models/user.py), with the fields the core
reads: identity, the stored credential used for e-signature re-verification,
and the role names attached through the user_roles table. -/
structure User where
  id : Nat
  username : String
  stored_credential : String
  roles : List String
deriving DecidableEq, Repr

/-- User.has_role from app/models/user.py: membership of the role name in the
user's role list. -/
def User.has_role (u : User) (role_name : String) : Bool :=
  u.roles.contains role_name

/-- User.is_admin from app/models/user.py: the user has the DMS_Admin role. -/
def User.is_admin (u : User) : Bool :=
  u.has_role "DMS_Admin"

/-- A document row (class Document in app/models/document.py), restricted to the
fields read or written by the modelled endpoints. -/
structure Document where
  id : Nat
  owner_id : Nat
  is_deleted : Bool
  current_version_id : Option Nat
  status : String
  updated_at : Nat
deriving DecidableEq, Repr

/-- A document version row (class DocumentVersion in
app/models/document_version.py), restricted to the fields read or written by
the modelled endpoints. lock_version is the optimistic-locking counter the
spec calls lock_counter. -/
structure DocumentVersion where
  id : Nat
  document_id : Nat
  version_number : Nat
  version_string : Option String
  parent_version_id : Option Nat
  is_latest : Bool
  replaced_by_version_id : Option Nat
  content_html : Option String
  content_hash : Option String
  status : VersionStatus
  change_type : Option ChangeType
  effective_date : Option Nat
  obsolete_date : Option Nat
  created_by_id : Nat
  submitted_at : Option Nat
  submitted_by_id : Option Nat
  reviewed_at : Option Nat
  reviewed_by_id : Option Nat
  approved_at : Option Nat
  approved_by_id : Option Nat
  published_at : Option Nat
  published_by_id : Option Nat
  rejected_at : Option Nat
  rejected_by_id : Option Nat
  archived_at : Option Nat
  archived_by_id : Option Nat
  updated_at : Nat
  lock_version : Nat
deriving DecidableEq, Repr

/-- An edit-lock row (class EditLock in app/models/edit_lock.py). -/
structure EditLock where
  id : Nat
  document_version_id : Nat
  user_id : Nat
  lock_token : String
  acquired_at : Nat
  expires_at : Nat
  last_heartbeat : Nat
  session_id : Option String
deriving DecidableEq, Repr

/-- EditLock.is_expired from app/models/edit_lock.py:
datetime.utcnow() > self.expires_at. -/
def EditLock.is_expired (l : EditLock) (now : Nat) : Bool :=
  decide (l.expires_at < now)

/-- EditLock.refresh from app/models/edit_lock.py: update last_heartbeat and
push expires_at to now + extend_minutes. -/
def EditLock.refresh (l : EditLock) (now : Nat) (extend_minutes : Nat) : EditLock :=
  { l with last_heartbeat := now, expires_at := now + extend_minutes * 60 }

/-- EditLock.default_expiry from app/models/edit_lock.py:
datetime.utcnow() + timedelta(minutes=minutes). -/
def EditLock.default_expiry (now : Nat) (minutes : Nat) : Nat :=
  now + minutes * 60

/-- A per-user content-view fact (class DocumentView in
app/models/document_view.py). -/
structure DocumentView where
  document_id : Nat
  version_id : Nat
  user_id : Nat
  viewed_at : Nat
deriving DecidableEq, Repr

/-- The transactional store: one list of rows per table touched by the core. -/
structure DB where
  documents : List Document
  versions : List DocumentVersion
  locks : List EditLock
  views : List DocumentView
deriving DecidableEq, Repr

/-- db.query(Document).filter(Document.id == document_id,
Document.is_deleted == False).first() -/
def DB.find_document (db : DB) (document_id : Nat) : Option Document :=
  db.documents.find? (fun d => d.id == document_id && !d.is_deleted)

/-- db.query(DocumentVersion).filter(DocumentVersion.id == version_id,
DocumentVersion.document_id == document_id).first() -/
def DB.find_version (db : DB) (document_id version_id : Nat) : Option DocumentVersion :=
  db.versions.find? (fun v => v.id == version_id && v.document_id == document_id)

/-- db.query(EditLock).filter(EditLock.document_version_id == version_id)
.first() -/
def DB.find_lock (db : DB) (version_id : Nat) : Option EditLock :=
  db.locks.find? (fun l => l.document_version_id == version_id)

/-- In-place ORM mutation of the first row matching a predicate: the list is
unchanged except that the first element satisfying p is replaced by its image
under f. -/
def update_first (p : α → Bool) (f : α → α) : List α → List α
  | [] => []
  | x :: xs => if p x then f x :: xs else x :: update_first p f xs

/-- One constructor per distinct HTTPException raise site in the modelled
endpoints, carrying the data the source puts in the detail message or the
response headers. -/
inductive ApiError where
  | documentNotFound
  | versionNotFound
  | notAuthorizedToLock
  | notAuthorizedToEdit
  | lockConflict (owner_user_id : Nat) (expires_at : Nat)
  | lockedByAnotherUser (owner_user_id : Nat)
  | invalidLockToken
  | lockHasExpired
  | concurrencyConflict (current_content_hash : Option String)
  | invalidStateTransition (current : VersionStatus)
  | contentNotViewed
  | eSignatureFailed
  | permissionDenied (detail : String)
deriving DecidableEq, Repr

/-- The HTTP status code each raise site uses in the source. Per the spec's
error taxonomy, 403 is PermissionDenied, 400 with the current status in the
message is InvalidStateTransition, 423 is LockConflict, 409 is
ConcurrencyConflict, 401 on the password check is ESignatureFailed. -/
def ApiError.http_status : ApiError → Nat
  | .documentNotFound => 404
  | .versionNotFound => 404
  | .notAuthorizedToLock => 403
  | .notAuthorizedToEdit => 403
  | .lockConflict _ _ => 423
  | .lockedByAnotherUser _ => 403
  | .invalidLockToken => 403
  | .lockHasExpired => 403
  | .concurrencyConflict _ => 409
  | .invalidStateTransition _ => 400
  | .contentNotViewed => 400
  | .eSignatureFailed => 401
  | .permissionDenied _ => 403

/-- can_acquire_lock from app/api/v1/edit_locks.py: only draft versions can be
locked; admins always may; authors may when they own the document or created
the version. -/
def can_acquire_lock (user : User) (document : Document) (version : DocumentVersion) : Bool :=
  if version.status != VersionStatus.draft then false
  else if user.is_admin then true
  else if user.has_role "Author" && (document.owner_id == user.id || version.created_by_id == user.id) then true
  else false

/-- The new-lock row built in acquire_lock: fresh_token models
EditLock.generate_token (secrets.token_urlsafe) and next_lock_id the
autoincremented primary key. -/
def fresh_lock (version_id : Nat) (user_id : Nat) (now : Nat) (fresh_token : String)
    (timeout_minutes : Nat) (session_id : Option String) (next_lock_id : Nat) : EditLock :=
  { id := next_lock_id
    document_version_id := version_id
    user_id := user_id
    lock_token := fresh_token
    acquired_at := now
    expires_at := EditLock.default_expiry now timeout_minutes
    last_heartbeat := now
    session_id := session_id }

/-- The store after the idempotent re-acquire: the existing lock row for the
version is refreshed in place. -/
def refresh_apply (db : DB) (version_id now extend_minutes : Nat) (l : EditLock) : DB :=
  { db with
    locks := update_first (fun x => x.document_version_id == version_id)
      (fun _ => l.refresh now extend_minutes) db.locks }

/-- The store after reclaiming an expired lock: the stale row is deleted and
the fresh row appended. -/
def replace_lock_apply (db : DB) (stale fresh : EditLock) : DB :=
  { db with locks := db.locks.erase stale ++ [fresh] }

/-- The store after a first acquisition: the fresh row appended. -/
def insert_lock_apply (db : DB) (fresh : EditLock) : DB :=
  { db with locks := db.locks ++ [fresh] }

/-- acquire_lock from app/api/v1/edit_locks.py, after the two 404 lookups:
permission check, then live-lock conflict or idempotent refresh, lazy deletion
of an expired lock, and creation of a fresh lock row. The IntegrityError
branch of the source guards a concurrent insert and is unreachable in this
sequential model. -/
def acquire_lock (db : DB) (current_user : User) (now : Nat) (fresh_token : String)
    (document_id version_id : Nat) (timeout_minutes : Nat) (session_id : Option String)
    (next_lock_id : Nat) :
    Except ApiError (DB × EditLock) :=
  match db.find_document document_id with
  | none => .error .documentNotFound
  | some document =>
    match db.find_version document_id version_id with
    | none => .error .versionNotFound
    | some version =>
      if !can_acquire_lock current_user document version then
        .error .notAuthorizedToLock
      else
        let new_lock : EditLock :=
          fresh_lock version_id current_user.id now fresh_token timeout_minutes session_id next_lock_id
        match db.find_lock version_id with
        | some existing_lock =>
          if !existing_lock.is_expired now then
            if existing_lock.user_id != current_user.id then
              .error (.lockConflict existing_lock.user_id existing_lock.expires_at)
            else
              .ok (refresh_apply db version_id now timeout_minutes existing_lock,
                existing_lock.refresh now timeout_minutes)
          else
            .ok (replace_lock_apply db existing_lock new_lock, new_lock)
        | none =>
          .ok (insert_lock_apply db new_lock, new_lock)

/-- Python truthiness of an optional string: None and the empty string are
falsy, every other string is truthy. -/
def truthy : Option String → Bool
  | none => false
  | some s => !(s == "")

/-- can_edit_version from app/api/v1/document_versions.py: only draft versions
can be edited; admins always may; authors may when they own the document or
created the version. -/
def can_edit_version (user : User) (document : Document) (version : DocumentVersion) : Bool :=
  if version.status != VersionStatus.draft then false
  else if user.is_admin then true
  else if user.has_role "Author" && (document.owner_id == user.id || version.created_by_id == user.id) then true
  else false

/-- Modelled from the spec: verify_password is defined in app/core/security.py,
which is not among the sources; section 6 of the spec describes it as an
external password verifier, password_verifier(plaintext) -> bool, against the
user's stored credential. It is modelled as equality of the supplied plaintext
with the stored credential; the claims depend only on its boolean outcome. -/
def verify_password (plain_password : String) (stored_credential : String) : Bool :=
  plain_password == stored_credential

/-- verify_esignature from app/api/v1/document_versions.py: re-verify the
acting user's password for 21 CFR Part 11 compliance; 401 on failure. -/
def verify_esignature (user : User) (password : String) : Except ApiError Unit :=
  if verify_password password user.stored_credential then .ok ()
  else .error .eSignatureFailed

/-- has_user_viewed_content from app/api/v1/document_versions.py: a
DocumentView row exists for this (version, user) pair. -/
def has_user_viewed_content (db : DB) (user_id version_id : Nat) : Bool :=
  (db.views.find? (fun r => r.version_id == version_id && r.user_id == user_id)).isSome

/-- mark_content_as_viewed from app/api/v1/document_versions.py: refresh the
timestamp of an existing (version, user) view row, or insert a fresh one. -/
def mark_content_as_viewed (db : DB) (user_id document_id version_id : Nat) (now : Nat) : DB :=
  match db.views.find? (fun r => r.version_id == version_id && r.user_id == user_id) with
  | some _ =>
    let views1 := update_first (fun r => r.version_id == version_id && r.user_id == user_id)
      (fun r => { r with viewed_at := now }) db.views
    { db with views := views1 }
  | none =>
    let fresh_view : DocumentView :=
      { document_id := document_id, version_id := version_id, user_id := user_id, viewed_at := now }
    { db with views := db.views ++ [fresh_view] }

/-- requires_content_view from app/api/v1/document_versions.py. The source's
initial None-check on the user is dropped: users are total values here. -/
def requires_content_view (user : User) (version : DocumentVersion) : Bool :=
  if !(version.status == VersionStatus.underReview || version.status == VersionStatus.pendingApproval) then
    false
  else if version.status == VersionStatus.underReview && user.has_role "Reviewer" then true
  else if version.status == VersionStatus.pendingApproval && user.has_role "Approver" then true
  else if user.is_admin then true
  else false

/-- Request body of the save endpoint (class DocumentVersionSave in
app/schemas/document_version.py). -/
structure DocumentVersionSave where
  content_html : String
  content_hash : Option String
  lock_token : Option String
  is_autosave : Bool
deriving DecidableEq, Repr

/-- The edit-lock block of save_version_content: when a lock row exists for
the version, a foreign owner, a supplied-but-mismatching token, or an expired
lock each abort the save; no lock row at all passes silently. -/
def edit_lock_gate (lock_row : Option EditLock) (current_user : User)
    (save_data : DocumentVersionSave) (now : Nat) : Option ApiError :=
  match lock_row with
  | none => none
  | some lock =>
    if lock.user_id != current_user.id then
      some (.lockedByAnotherUser lock.user_id)
    else if truthy save_data.lock_token && !(some lock.lock_token == save_data.lock_token) then
      some .invalidLockToken
    else if lock.is_expired now then
      some .lockHasExpired
    else none

/-- The accepted-write mutation of save_version_content: store the new
content, recompute the fingerprint with chash, stamp updated_at, and bump the
optimistic counter lock_version by one. -/
def saved_version (chash : String → String) (now : Nat) (content : String)
    (version : DocumentVersion) : DocumentVersion :=
  { version with
    content_html := some content
    content_hash := some (chash content)
    updated_at := now
    lock_version := version.lock_version + 1 }

/-- The audit policy of save_version_content: manual saves always audit;
autosaves audit when the already-bumped lock_version is a multiple of 10. -/
def save_audited (is_autosave : Bool) (bumped_lock_version : Nat) : Bool :=
  !is_autosave || (is_autosave && bumped_lock_version % 10 == 0)

/-- The store after an accepted save: the version row is replaced in place by
its saved_version image. -/
def save_apply (chash : String → String) (db : DB) (now document_id version_id : Nat)
    (content : String) (version : DocumentVersion) : DB :=
  { db with
    versions := update_first (fun v => v.id == version_id && v.document_id == document_id)
      (fun _ => saved_version chash now content version) db.versions }

/-- save_version_content from app/api/v1/document_versions.py, after the two
404 lookups: edit permission, edit-lock checks, optimistic-concurrency check,
then the accepted write and the audit policy. The returned boolean is whether
AuditLogger.log was invoked. -/
def save_version_content (chash : String → String) (db : DB) (current_user : User) (now : Nat)
    (document_id version_id : Nat) (save_data : DocumentVersionSave) :
    Except ApiError (DB × DocumentVersion × Bool) :=
  match db.find_document document_id with
  | none => .error .documentNotFound
  | some document =>
    match db.find_version document_id version_id with
    | none => .error .versionNotFound
    | some version =>
      if !can_edit_version current_user document version then
        .error .notAuthorizedToEdit
      else
        match edit_lock_gate (db.find_lock version_id) current_user save_data now with
        | some e => .error e
        | none =>
          if truthy save_data.content_hash && !(version.content_hash == save_data.content_hash) then
            .error (.concurrencyConflict version.content_hash)
          else
            let updated := saved_version chash now save_data.content_html version
            let db1 := save_apply chash db now document_id version_id save_data.content_html version
            .ok (db1, updated, save_audited save_data.is_autosave updated.lock_version)

/-- submit_for_review from app/api/v1/document_versions.py. sig_prepared
models update_all_signatory_tokens applied with the prepared-by user and
date; the claims only need that it is some content mutation. -/
def submit_for_review (chash : String → String) (sig_prepared : String → String)
    (db : DB) (current_user : User) (password : String) (now : Nat)
    (document_id version_id : Nat) :
    Except ApiError (DB × DocumentVersion) :=
  match verify_esignature current_user password with
  | .error e => .error e
  | .ok _ =>
    match db.find_document document_id with
    | none => .error .documentNotFound
    | some _document =>
      match db.find_version document_id version_id with
      | none => .error .versionNotFound
      | some version =>
        if !(current_user.has_role "Author" || current_user.is_admin) then
          .error (.permissionDenied "Only Authors and Admins can submit for review")
        else if version.status != VersionStatus.draft then
          .error (.invalidStateTransition version.status)
        else
          let v1 := { version with
            status := VersionStatus.underReview
            submitted_at := some now
            submitted_by_id := some current_user.id }
          let v2 :=
            if truthy v1.content_html then
              let updated_content := sig_prepared (v1.content_html.getD "")
              { v1 with
                content_html := some updated_content
                content_hash := some (chash updated_content)
                updated_at := now }
            else v1
          let db1 := { db with
            versions := update_first (fun v => v.id == version_id && v.document_id == document_id)
              (fun _ => v2) db.versions }
          .ok (db1, v2)

/-- approve_version from app/api/v1/document_versions.py: the view gate runs
right after the 404 lookups, before the role and status branching. sig_checked
and sig_approved model update_all_signatory_tokens for the two stages. -/
def approve_version (chash : String → String) (sig_checked sig_approved : String → String)
    (db : DB) (current_user : User) (password : String) (now : Nat)
    (document_id version_id : Nat) :
    Except ApiError (DB × DocumentVersion) :=
  match verify_esignature current_user password with
  | .error e => .error e
  | .ok _ =>
    match db.find_document document_id with
    | none => .error .documentNotFound
    | some _document =>
      match db.find_version document_id version_id with
      | none => .error .versionNotFound
      | some version =>
        if requires_content_view current_user version &&
            !has_user_viewed_content db current_user.id version_id then
          .error .contentNotViewed
        else if version.status == VersionStatus.underReview then
          if !(current_user.has_role "Reviewer" || current_user.is_admin) then
            .error (.permissionDenied "Only Reviewers and Admins can approve review")
          else
            let v1 := { version with
              status := VersionStatus.pendingApproval
              reviewed_at := some now
              reviewed_by_id := some current_user.id }
            let v2 :=
              if truthy v1.content_html then
                let updated_content := sig_checked (v1.content_html.getD "")
                { v1 with
                  content_html := some updated_content
                  content_hash := some (chash updated_content)
                  updated_at := now }
              else v1
            let db1 := { db with
              versions := update_first (fun v => v.id == version_id && v.document_id == document_id)
                (fun _ => v2) db.versions }
            .ok (db1, v2)
        else if version.status == VersionStatus.pendingApproval then
          if !(current_user.has_role "Approver" || current_user.is_admin) then
            .error (.permissionDenied "Only Approvers and Admins can approve document")
          else
            let v1 := { version with
              status := VersionStatus.approved
              approved_at := some now
              approved_by_id := some current_user.id }
            let v2 :=
              if truthy v1.content_html then
                let updated_content := sig_approved (v1.content_html.getD "")
                { v1 with
                  content_html := some updated_content
                  content_hash := some (chash updated_content)
                  updated_at := now }
              else v1
            let db1 := { db with
              versions := update_first (fun v => v.id == version_id && v.document_id == document_id)
                (fun _ => v2) db.versions }
            .ok (db1, v2)
        else
          .error (.invalidStateTransition version.status)

/-- reject_version from app/api/v1/document_versions.py: view gate, then role
check, then status check, then the return to draft. -/
def reject_version (db : DB) (current_user : User) (password : String) (now : Nat)
    (document_id version_id : Nat) :
    Except ApiError (DB × DocumentVersion) :=
  match verify_esignature current_user password with
  | .error e => .error e
  | .ok _ =>
    match db.find_document document_id with
    | none => .error .documentNotFound
    | some _document =>
      match db.find_version document_id version_id with
      | none => .error .versionNotFound
      | some version =>
        if requires_content_view current_user version &&
            !has_user_viewed_content db current_user.id version_id then
          .error .contentNotViewed
        else if !(current_user.has_role "Reviewer" || current_user.has_role "Approver" || current_user.is_admin) then
          .error (.permissionDenied "Only Reviewers, Approvers, and Admins can reject documents")
        else if !(version.status == VersionStatus.underReview || version.status == VersionStatus.pendingApproval) then
          .error (.invalidStateTransition version.status)
        else
          let v1 := { version with
            status := VersionStatus.draft
            rejected_at := some now
            rejected_by_id := some current_user.id }
          let db1 := { db with
            versions := update_first (fun v => v.id == version_id && v.document_id == document_id)
              (fun _ => v1) db.versions }
          .ok (db1, v1)

/-- The per-row mutation of the obsolescence loop in publish_version: status
Obsolete, obsolete_date stamped, replaced_by_version_id pointing at the newly
published version, is_latest cleared. -/
def make_obsolete (now new_version_id : Nat) (v : DocumentVersion) : DocumentVersion :=
  { v with
    status := VersionStatus.obsolete
    obsolete_date := some now
    replaced_by_version_id := some new_version_id
    is_latest := false }

/-- The filter of the previous-effective query in publish_version: same
document, status Effective, and not the version being published. -/
def prev_effective (document_id version_id : Nat) (v : DocumentVersion) : Bool :=
  v.document_id == document_id && v.status == VersionStatus.effective && v.id != version_id

/-- Python str.startswith, modelled on the character lists of the strings
(String.startsWith itself does not reduce in the kernel). -/
def starts_with (s pre : String) : Bool :=
  s.data.take pre.data.length == pre.data

/-- The version_string rewrite in publish_version: a truthy string starting
with "v0." becomes "v1.0", anything else is left as computed at creation. -/
def publish_version_string (s : Option String) : Option String :=
  if truthy s && starts_with (s.getD "") "v0." then some "v1.0" else s

/-- The field updates applied to the publishing version in publish_version. -/
def make_published (now : Nat) (publisher_id : Nat) (requested_effective_date : Option Nat)
    (v : DocumentVersion) : DocumentVersion :=
  { v with
    version_string := publish_version_string v.version_string
    status := VersionStatus.effective
    effective_date := some (requested_effective_date.getD now)
    published_at := some now
    published_by_id := some publisher_id
    is_latest := true }

/-- The committed transaction of a successful publish: obsolete every other
Effective version of the document, replace the published version row, and
point the document at it. -/
def publish_apply (db : DB) (now : Nat) (document_id version_id : Nat)
    (version : DocumentVersion) (publisher_id : Nat) (requested_effective_date : Option Nat) :
    DB × DocumentVersion :=
  let published := make_published now publisher_id requested_effective_date version
  let versions1 := db.versions.map (fun v =>
    if prev_effective document_id version_id v then make_obsolete now version.id v else v)
  let versions2 := update_first (fun v => v.id == version_id && v.document_id == document_id)
    (fun _ => published) versions1
  let documents1 := update_first (fun d => d.id == document_id && !d.is_deleted)
    (fun d => { d with
      current_version_id := some version.id
      status := "EFFECTIVE"
      updated_at := now }) db.documents
  ({ db with versions := versions2, documents := documents1 }, published)

/-- publish_version from app/api/v1/document_versions.py: e-signature, admin
gate, 404 lookups, mandatory-view gate, Approved-status gate, then in one
transaction the obsolescence cascade over every other Effective version of the
document, the v0.x to v1.0 rewrite, and the promotion to Effective. -/
def publish_version (db : DB) (current_user : User) (password : String) (now : Nat)
    (document_id version_id : Nat) (requested_effective_date : Option Nat) :
    Except ApiError (DB × DocumentVersion) :=
  match verify_esignature current_user password with
  | .error e => .error e
  | .ok _ =>
    if !current_user.is_admin then
      .error (.permissionDenied "Only DMS Admins can publish documents")
    else
      match db.find_document document_id with
      | none => .error .documentNotFound
      | some _document =>
        match db.find_version document_id version_id with
        | none => .error .versionNotFound
        | some version =>
          if !has_user_viewed_content db current_user.id version_id then
            .error .contentNotViewed
          else if version.status != VersionStatus.approved then
            .error (.invalidStateTransition version.status)
          else
            .ok (publish_apply db now document_id version_id version current_user.id
              requested_effective_date)

/-- archive_version from app/api/v1/document_versions.py: e-signature, admin
gate, 404 lookups, then the archive stamp; the document status follows only
when the archived version is its current version. No source-status check. -/
def archive_version (db : DB) (current_user : User) (password : String) (now : Nat)
    (document_id version_id : Nat) :
    Except ApiError (DB × DocumentVersion) :=
  match verify_esignature current_user password with
  | .error e => .error e
  | .ok _ =>
    if !current_user.is_admin then
      .error (.permissionDenied "Only DMS Admins can archive documents")
    else
      match db.find_document document_id with
      | none => .error .documentNotFound
      | some document =>
        match db.find_version document_id version_id with
        | none => .error .versionNotFound
        | some version =>
          let v1 := { version with
            status := VersionStatus.archived
            archived_at := some now
            archived_by_id := some current_user.id }
          let db1 := { db with
            versions := update_first (fun v => v.id == version_id && v.document_id == document_id)
              (fun _ => v1) db.versions
            documents :=
              if document.current_version_id == some version.id then
                update_first (fun d => d.id == document_id && !d.is_deleted)
                  (fun d => { d with status := "ARCHIVED" }) db.documents
              else db.documents }
          .ok (db1, v1)

/-! Concrete fixtures used by witness and counterexample theorems. -/

def alice : User :=
  { id := 1, username := "alice", stored_credential := "pwa", roles := ["Author"] }

def bob : User :=
  { id := 2, username := "bob", stored_credential := "pwb", roles := ["Reviewer"] }

def carol : User :=
  { id := 3, username := "carol", stored_credential := "pwc", roles := ["Approver"] }

def dana : User :=
  { id := 4, username := "dana", stored_credential := "pwd", roles := ["DMS_Admin"] }

def doc1 : Document :=
  { id := 10, owner_id := 1, is_deleted := false, current_version_id := some 100,
    status := "DRAFT", updated_at := 0 }

def base_version : DocumentVersion :=
  { id := 100
    document_id := 10
    version_number := 1
    version_string := some "v0.1"
    parent_version_id := none
    is_latest := true
    replaced_by_version_id := none
    content_html := some "body"
    content_hash := some "body"
    status := VersionStatus.draft
    change_type := none
    effective_date := none
    obsolete_date := none
    created_by_id := 1
    submitted_at := none
    submitted_by_id := none
    reviewed_at := none
    reviewed_by_id := none
    approved_at := none
    approved_by_id := none
    published_at := none
    published_by_id := none
    rejected_at := none
    rejected_by_id := none
    archived_at := none
    archived_by_id := none
    updated_at := 0
    lock_version := 0 }

/-- A one-document, one-draft-version store with no locks and no views. -/
def draft_db : DB :=
  { documents := [doc1], versions := [base_version], locks := [], views := [] }

/-- A lock held by bob on version 100, acquired at 0, expiring at 90. -/
def bob_lock : EditLock :=
  { id := 7, document_version_id := 100, user_id := 2, lock_token := "tokB",
    acquired_at := 0, expires_at := 90, last_heartbeat := 0, session_id := none }

def locked_db : DB :=
  { draft_db with locks := [bob_lock] }

/-- The publish fixture: version 100 Approved with pre-effective string v0.3,
version 90 currently Effective, and dana has viewed version 100. -/
def approved_version : DocumentVersion :=
  { base_version with status := VersionStatus.approved, version_string := some "v0.3" }

def old_effective_version : DocumentVersion :=
  { base_version with
    id := 90
    version_number := 0
    version_string := some "v1.0"
    status := VersionStatus.effective
    effective_date := some 1
    is_latest := false }

def publish_db : DB :=
  { documents := [doc1]
    versions := [old_effective_version, approved_version]
    locks := []
    views := [{ document_id := 10, version_id := 100, user_id := 4, viewed_at := 2 }] }

/-- The view-gate fixture: version 100 UnderReview, no view rows. -/
def under_review_db : DB :=
  { draft_db with versions := [{ base_version with status := VersionStatus.underReview }] }

/-- The lock-related error kinds of the spec's taxonomy among the modelled
raise sites: LockConflict (423) and the three lock-state 403s of the save
endpoint. -/
def is_lock_error : ApiError → Bool
  | .lockConflict _ _ => true
  | .lockedByAnotherUser _ => true
  | .invalidLockToken => true
  | .lockHasExpired => true
  | _ => false

/-- One save step of the audit-policy scenario on the draft fixture: alice
saves content "c" with no supplied fingerprint and no lock token, the
identity function standing in for SHA-256; the store is kept on error. -/
def step_save (auto : Bool) (db : DB) : DB :=
  match save_version_content (fun s => s) db alice 5 10 100
    { content_html := "c", content_hash := none, lock_token := none, is_autosave := auto } with
  | .ok (db1, _, _) => db1
  | .error _ => db

/-- The audit flag of a save result, when the save was accepted. -/
def audited_of (r : Except ApiError (DB × DocumentVersion × Bool)) : Option Bool :=
  match r with
  | .ok (_, _, b) => some b
  | .error _ => none


/-! Helper lemmas about update_first and row counting. -/

theorem update_first_length (p : α → Bool) (f : α → α) (l : List α) :
    (update_first p f l).length = l.length := by
  induction l with
  | nil => rfl
  | cons x xs ih =>
    by_cases hx : p x = true
    · simp [update_first, hx]
    · simp [update_first, hx, ih]

theorem mem_update_first_of_neg (p : α → Bool) (f : α → α) {l : List α} {x : α}
    (hx : x ∈ l) (hpx : p x = false) : x ∈ update_first p f l := by
  induction l with
  | nil => cases hx
  | cons y ys ih =>
    by_cases hy : p y = true
    · cases List.mem_cons.mp hx with
      | inl h => subst h; rw [hy] at hpx; cases hpx
      | inr h => simp [update_first, hy, List.mem_cons, h]
    · cases List.mem_cons.mp hx with
      | inl h => subst h; simp [update_first, hy, List.mem_cons]
      | inr h => simp [update_first, hy, List.mem_cons, ih h]

theorem map_if_id_of_countP_zero (p : α → Bool) (f : α → α) (l : List α)
    (h : l.countP p = 0) : l.map (fun x => if p x then f x else x) = l := by
  induction l with
  | nil => rfl
  | cons x xs ih =>
    rw [List.countP_cons] at h
    have hx : p x = false := by
      by_cases hx : p x = true
      · rw [if_pos hx] at h; omega
      · simpa using hx
    rw [if_neg (by simp [hx])] at h
    simp [hx, ih (by omega)]

theorem update_first_eq_map (p : α → Bool) (f : α → α) (l : List α)
    (h : l.countP p ≤ 1) : update_first p f l = l.map (fun x => if p x then f x else x) := by
  induction l with
  | nil => rfl
  | cons x xs ih =>
    rw [List.countP_cons] at h
    by_cases hx : p x = true
    · rw [if_pos hx] at h
      have hzero : xs.countP p = 0 := by omega
      simp [update_first, hx, map_if_id_of_countP_zero p f xs hzero]
    · rw [if_neg hx] at h
      have hb : p x = false := by simpa using hx
      simp [update_first, hb, ih (by omega)]

theorem countP_le_one_of_nodup_map (f : α → Nat) (l : List α)
    (h : (l.map f).Nodup) (b : Nat) : l.countP (fun a => f a == b) ≤ 1 := by
  induction l with
  | nil => simp
  | cons x xs ih =>
    rw [List.map_cons, List.nodup_cons] at h
    rw [List.countP_cons]
    by_cases hx : f x = b
    · have hzero : xs.countP (fun a => f a == b) = 0 := by
        apply List.countP_eq_zero.mpr
        intro y hy hyb
        have hfy : f y = b := by simpa using hyb
        apply h.1
        rw [hx]
        exact hfy ▸ List.mem_map_of_mem f hy
      simp [hzero, hx]
    · have : (fun a => f a == b) x = false := by simpa using hx
      simp [this, ih h.2]

/-! Claim theorems. -/

/-- C4: for every state-changing workflow call (submit, approve, reject,
publish, archive), if password re-verification of the acting user fails, the
call fails with ESignatureFailed and the store, hence the version, is
unchanged (errors never produce a new store in this model). The check is the
first step of every such call: the statement quantifies over every store,
user, role set and request, so no session state can bypass it. -/
theorem esignature_gate_on_every_workflow_call
    (chash sig_p sig_c sig_a : String → String) (db : DB) (u : User) (pw : String)
    (now document_id version_id : Nat) (eff : Option Nat)
    (hpw : verify_password pw u.stored_credential = false) :
    submit_for_review chash sig_p db u pw now document_id version_id = .error .eSignatureFailed ∧
    approve_version chash sig_c sig_a db u pw now document_id version_id = .error .eSignatureFailed ∧
    reject_version db u pw now document_id version_id = .error .eSignatureFailed ∧
    publish_version db u pw now document_id version_id eff = .error .eSignatureFailed ∧
    archive_version db u pw now document_id version_id = .error .eSignatureFailed := by
  refine ⟨?_, ?_, ?_, ?_, ?_⟩ <;>
    simp [submit_for_review, approve_version, reject_version, publish_version, archive_version,
      verify_esignature, hpw]

/-- Witness for C4: dana's stored credential is "pwd"; each of the five calls
with password "nope" fails with ESignatureFailed. -/
theorem esignature_gate_on_every_workflow_call_witness :
    submit_for_review (fun s => s) (fun s => s) publish_db dana "nope" 3 10 100 =
      .error .eSignatureFailed ∧
    approve_version (fun s => s) (fun s => s) (fun s => s) publish_db dana "nope" 3 10 100 =
      .error .eSignatureFailed ∧
    reject_version publish_db dana "nope" 3 10 100 = .error .eSignatureFailed ∧
    publish_version publish_db dana "nope" 3 10 100 none = .error .eSignatureFailed ∧
    archive_version publish_db dana "nope" 3 10 100 = .error .eSignatureFailed :=
  esignature_gate_on_every_workflow_call (fun s => s) (fun s => s) (fun s => s) (fun s => s)
    publish_db dana "nope" 3 10 100 none (by decide)

/-- C6 counterexample: admin dana attempts to lock version 100 while it is
UnderReview. The call fails with the merged HTTP-403 authorization error of
can_acquire_lock (PermissionDenied in the spec's taxonomy), not with the
HTTP-400 InvalidStateTransition error kind the claim names. -/
theorem acquire_lock_non_draft_counterexample :
    acquire_lock under_review_db dana 50 "fresh" 10 100 30 none 8 = .error .notAuthorizedToLock ∧
    ApiError.notAuthorizedToLock.http_status = 403 ∧
    (ApiError.invalidStateTransition VersionStatus.underReview).http_status = 400 ∧
    ApiError.notAuthorizedToLock ≠ ApiError.invalidStateTransition VersionStatus.underReview := by
  refine ⟨rfl, rfl, rfl, by decide⟩

/-- C6 (amended): acquiring an edit lock on a version in any non-Draft status
fails for every user, but with the HTTP-403 PermissionDenied error raised by
the merged authorization check of can_acquire_lock, whose detail names both
causes, not with InvalidStateTransition. -/
theorem acquire_lock_non_draft_permission_denied
    (db : DB) (u : User) (now : Nat) (tok : String)
    (document_id version_id timeout_minutes next_lock_id : Nat) (sid : Option String)
    (document : Document) (version : DocumentVersion)
    (hdoc : db.find_document document_id = some document)
    (hver : db.find_version document_id version_id = some version)
    (hst : version.status ≠ VersionStatus.draft) :
    acquire_lock db u now tok document_id version_id timeout_minutes sid next_lock_id =
      .error .notAuthorizedToLock ∧
    ApiError.notAuthorizedToLock.http_status = 403 := by
  have hcan : can_acquire_lock u document version = false := by
    simp [can_acquire_lock, hst]
  simp [acquire_lock, hdoc, hver, hcan, ApiError.http_status]

/-- Witness for the amended C6 at the concrete UnderReview fixture. -/
theorem acquire_lock_non_draft_permission_denied_witness :
    acquire_lock under_review_db dana 51 "fresh2" 10 100 30 none 9 =
      .error .notAuthorizedToLock ∧
    ApiError.notAuthorizedToLock.http_status = 403 :=
  acquire_lock_non_draft_permission_denied under_review_db dana 51 "fresh2" 10 100 30 9 none
    doc1 { base_version with status := VersionStatus.underReview }
    (by decide) (by decide) (by decide)

/-- C5: requires_content_view holds exactly when the version is UnderReview
and the user is a Reviewer or an admin, or PendingApproval and the user is an
Approver or an admin; and whenever it holds and no DocumentView row exists
for the acting user, approve and reject both fail with ContentNotViewed
(stated under a passing e-signature, which the source checks first). -/
theorem view_gate_requires_view
    (chash sig_c sig_a : String → String) (db : DB) (u : User) (pw : String)
    (now document_id version_id : Nat) (document : Document) (version : DocumentVersion) :
    (∀ u' : User, ∀ v : DocumentVersion,
      requires_content_view u' v =
        ((v.status == VersionStatus.underReview && (u'.has_role "Reviewer" || u'.is_admin)) ||
         (v.status == VersionStatus.pendingApproval && (u'.has_role "Approver" || u'.is_admin)))) ∧
    (verify_password pw u.stored_credential = true →
      db.find_document document_id = some document →
      db.find_version document_id version_id = some version →
      requires_content_view u version = true →
      has_user_viewed_content db u.id version_id = false →
      approve_version chash sig_c sig_a db u pw now document_id version_id =
        .error .contentNotViewed ∧
      reject_version db u pw now document_id version_id = .error .contentNotViewed) := by
  constructor
  · intro u' v
    unfold requires_content_view
    cases hv : v.status <;> cases hR : u'.has_role "Reviewer" <;>
      cases hA : u'.has_role "Approver" <;> cases hAd : u'.is_admin <;> simp [hv, hR, hA, hAd]
  · intro hpw hdoc hver hreq hnv
    constructor <;>
      simp [approve_version, reject_version, verify_esignature, hpw, hdoc, hver, hreq, hnv]

/-- Witness for C5: reviewer bob, with the correct password, can neither
approve nor reject the UnderReview version 100 before viewing it. -/
theorem view_gate_requires_view_witness :
    approve_version (fun s => s) (fun s => s) (fun s => s) under_review_db bob "pwb" 9 10 100 =
      .error .contentNotViewed ∧
    reject_version under_review_db bob "pwb" 9 10 100 = .error .contentNotViewed :=
  (view_gate_requires_view (fun s => s) (fun s => s) (fun s => s) under_review_db bob "pwb" 9 10 100
    doc1 { base_version with status := VersionStatus.underReview }).2
    (by decide) (by decide) (by decide) (by decide) (by decide)

/-- C2: the optimistic-concurrency guard of save_version_content. With the
document and version found, the user allowed to edit, and the edit-lock gate
passing: a supplied fingerprint that does not match the stored one makes the
save fail with ConcurrencyConflict carrying the true stored fingerprint, and
the error result leaves the store, hence lock_version, unchanged; a matching
fingerprint makes the save succeed, store the new content, recompute the
fingerprint from it, and bump lock_version by exactly one, so lock_version is
strictly increasing across accepted saves. -/
theorem save_optimistic_concurrency
    (chash : String → String) (db : DB) (u : User) (now document_id version_id : Nat)
    (content supplied : String) (tok : Option String) (auto : Bool)
    (document : Document) (version : DocumentVersion)
    (hdoc : db.find_document document_id = some document)
    (hver : db.find_version document_id version_id = some version)
    (hedit : can_edit_version u document version = true)
    (hgate : edit_lock_gate (db.find_lock version_id) u
      { content_html := content, content_hash := some supplied, lock_token := tok,
        is_autosave := auto } now = none)
    (hsup : supplied ≠ "") :
    (version.content_hash ≠ some supplied →
      save_version_content chash db u now document_id version_id
        { content_html := content, content_hash := some supplied, lock_token := tok,
          is_autosave := auto } =
        .error (.concurrencyConflict version.content_hash)) ∧
    (version.content_hash = some supplied →
      save_version_content chash db u now document_id version_id
        { content_html := content, content_hash := some supplied, lock_token := tok,
          is_autosave := auto } =
        .ok (save_apply chash db now document_id version_id content version,
          saved_version chash now content version,
          save_audited auto (version.lock_version + 1)) ∧
      (saved_version chash now content version).content_html = some content ∧
      (saved_version chash now content version).content_hash = some (chash content) ∧
      (saved_version chash now content version).lock_version = version.lock_version + 1) := by
  have htr : truthy (some supplied) = true := by simp [truthy, hsup]
  constructor
  · intro hne
    have hb : (version.content_hash == some supplied) = false := by
      simpa using hne
    simp [save_version_content, hdoc, hver, hedit, hgate, htr, hb]
  · intro heq
    have hb : (version.content_hash == some supplied) = true := by
      simpa using heq
    refine ⟨?_, rfl, rfl, rfl⟩
    simp [save_version_content, hdoc, hver, hedit, hgate, htr, hb, saved_version, save_audited]

/-- Witness for C2, rejection side: alice saves with stale fingerprint
"stale" while "body" is stored; the save fails with ConcurrencyConflict
reporting "body". -/
theorem save_optimistic_concurrency_witness :
    save_version_content (fun s => s) draft_db alice 5 10 100
      { content_html := "new", content_hash := some "stale", lock_token := none,
        is_autosave := false } =
      .error (.concurrencyConflict (some "body")) :=
  (save_optimistic_concurrency (fun s => s) draft_db alice 5 10 100 "new" "stale" none false
    doc1 base_version (by decide) (by decide) (by decide) (by decide) (by decide)).1 (by decide)

/-- C9: holding an edit lock is not a precondition of a content write. When
no EditLock row exists for the version, the lock gate passes silently: with
the document and version found, the user allowed to edit, and the
optimistic-concurrency check passing, the save is accepted; and regardless of
those gates, a store with no lock row for the version never produces a
lock-related error. -/
theorem save_without_lock_row
    (chash : String → String) (db : DB) (u : User) (now document_id version_id : Nat)
    (sd : DocumentVersionSave)
    (hnolock : db.find_lock version_id = none) :
    (∀ document version,
      db.find_document document_id = some document →
      db.find_version document_id version_id = some version →
      can_edit_version u document version = true →
      (truthy sd.content_hash && !(version.content_hash == sd.content_hash)) = false →
      save_version_content chash db u now document_id version_id sd =
        .ok (save_apply chash db now document_id version_id sd.content_html version,
          saved_version chash now sd.content_html version,
          save_audited sd.is_autosave (version.lock_version + 1))) ∧
    (∀ e, save_version_content chash db u now document_id version_id sd = .error e →
      is_lock_error e = false) := by
  constructor
  · intro document version hdoc hver hedit hocc
    simp [save_version_content, hdoc, hver, hedit, hnolock, edit_lock_gate, hocc,
      saved_version, save_audited]
  · intro e he
    simp only [save_version_content, hnolock, edit_lock_gate] at he
    split at he
    · injection he with h; subst h; rfl
    · split at he
      · injection he with h; subst h; rfl
      · split at he
        · injection he with h; subst h; rfl
        · split at he
          · injection he with h; subst h; rfl
          · cases he

/-- Witness for C9: alice saves on the lock-free draft fixture; the save is
accepted with no lock check. -/
theorem save_without_lock_row_witness :
    save_version_content (fun s => s) draft_db alice 5 10 100
      { content_html := "new", content_hash := none, lock_token := none, is_autosave := false } =
      .ok (save_apply (fun s => s) draft_db 5 10 100 "new" base_version,
        saved_version (fun s => s) 5 "new" base_version,
        save_audited false (base_version.lock_version + 1)) :=
  (save_without_lock_row (fun s => s) draft_db alice 5 10 100
    { content_html := "new", content_hash := none, lock_token := none, is_autosave := false }
    (by decide)).1 doc1 base_version (by decide) (by decide) (by decide) (by decide)

/-- The edit-lock gate never reports a concurrency conflict: its errors are
the three lock-state errors only. -/
theorem edit_lock_gate_no_concurrency_conflict
    (lock_row : Option EditLock) (u : User) (sd : DocumentVersionSave) (now : Nat)
    (e : ApiError) (he : edit_lock_gate lock_row u sd now = some e) :
    ∀ h, e ≠ .concurrencyConflict h := by
  intro h
  cases lock_row with
  | none => simp [edit_lock_gate] at he
  | some lock =>
    simp only [edit_lock_gate] at he
    split at he
    · injection he with h1; subst h1; simp
    · split at he
      · injection he with h1; subst h1; simp
      · split at he
        · injection he with h1; subst h1; simp
        · cases he

/-- C10: when the caller supplies no content fingerprint, the
optimistic-concurrency check is skipped entirely: no ConcurrencyConflict can
arise on any store, and once the document, version, permission and lock gates
pass, the write is accepted unconditionally, overwriting the stored content
whatever the stored fingerprint was. -/
theorem save_without_fingerprint_skips_check
    (chash : String → String) (db : DB) (u : User) (now document_id version_id : Nat)
    (content : String) (tok : Option String) (auto : Bool) :
    (∀ e, save_version_content chash db u now document_id version_id
        { content_html := content, content_hash := none, lock_token := tok,
          is_autosave := auto } = .error e →
      ∀ h, e ≠ .concurrencyConflict h) ∧
    (∀ document version,
      db.find_document document_id = some document →
      db.find_version document_id version_id = some version →
      can_edit_version u document version = true →
      edit_lock_gate (db.find_lock version_id) u
        { content_html := content, content_hash := none, lock_token := tok,
          is_autosave := auto } now = none →
      save_version_content chash db u now document_id version_id
        { content_html := content, content_hash := none, lock_token := tok,
          is_autosave := auto } =
        .ok (save_apply chash db now document_id version_id content version,
          saved_version chash now content version,
          save_audited auto (version.lock_version + 1))) := by
  constructor
  · intro e he h
    simp only [save_version_content] at he
    split at he
    · injection he with h1; subst h1; simp
    · split at he
      · injection he with h1; subst h1; simp
      · split at he
        · injection he with h1; subst h1; simp
        · split at he
          · rename_i heq
            injection he with h1
            subst h1
            exact edit_lock_gate_no_concurrency_conflict _ _ _ _ _ heq h
          · simp only [truthy, Bool.false_and] at he
            cases he
  · intro document version hdoc hver hedit hgate
    simp [save_version_content, hdoc, hver, hedit, hgate, truthy, saved_version, save_audited]

/-- Witness for C10: alice saves with no fingerprint over stored fingerprint
"body"; the write is accepted and overwrites the content. -/
theorem save_without_fingerprint_skips_check_witness :
    save_version_content (fun s => s) draft_db alice 6 10 100
      { content_html := "other", content_hash := none, lock_token := none, is_autosave := true } =
      .ok (save_apply (fun s => s) draft_db 6 10 100 "other" base_version,
        saved_version (fun s => s) 6 "other" base_version,
        save_audited true (base_version.lock_version + 1)) :=
  (save_without_fingerprint_skips_check (fun s => s) draft_db alice 6 10 100 "other" none true).2
    doc1 base_version (by decide) (by decide) (by decide) (by decide)

/-- C3: the three existing-lock branches of acquire_lock on a Draft version
by an authorized user (can_acquire_lock true forces Draft status). A live
lock of another user yields LockConflict reporting the holder and the expiry;
a live lock of the same user is refreshed in place, preserving the row count
and the token, and returned; an expired lock is deleted and a fresh row
carrying the fresh opaque token is inserted. -/
theorem acquire_lock_existing_lock_cases
    (db : DB) (u : User) (now : Nat) (tok : String)
    (document_id version_id timeout_minutes next_lock_id : Nat) (sid : Option String)
    (document : Document) (version : DocumentVersion) (l : EditLock)
    (hdoc : db.find_document document_id = some document)
    (hver : db.find_version document_id version_id = some version)
    (hcan : can_acquire_lock u document version = true)
    (hlock : db.find_lock version_id = some l) :
    (l.is_expired now = false → l.user_id ≠ u.id →
      acquire_lock db u now tok document_id version_id timeout_minutes sid next_lock_id =
        .error (.lockConflict l.user_id l.expires_at)) ∧
    (l.is_expired now = false → l.user_id = u.id →
      acquire_lock db u now tok document_id version_id timeout_minutes sid next_lock_id =
        .ok (refresh_apply db version_id now timeout_minutes l,
          l.refresh now timeout_minutes) ∧
      (refresh_apply db version_id now timeout_minutes l).locks.length = db.locks.length ∧
      (l.refresh now timeout_minutes).lock_token = l.lock_token) ∧
    (l.is_expired now = true →
      acquire_lock db u now tok document_id version_id timeout_minutes sid next_lock_id =
        .ok (replace_lock_apply db l
            (fresh_lock version_id u.id now tok timeout_minutes sid next_lock_id),
          fresh_lock version_id u.id now tok timeout_minutes sid next_lock_id) ∧
      (replace_lock_apply db l
          (fresh_lock version_id u.id now tok timeout_minutes sid next_lock_id)).locks =
        db.locks.erase l ++ [fresh_lock version_id u.id now tok timeout_minutes sid next_lock_id] ∧
      (fresh_lock version_id u.id now tok timeout_minutes sid next_lock_id).lock_token = tok) := by
  refine ⟨?_, ?_, ?_⟩
  · intro hlive hne
    simp [acquire_lock, hdoc, hver, hcan, hlock, hlive, hne]
  · intro hlive hsame
    refine ⟨?_, update_first_length _ _ _, rfl⟩
    simp [acquire_lock, hdoc, hver, hcan, hlock, hlive, hsame]
  · intro hexp
    refine ⟨?_, rfl, rfl⟩
    simp [acquire_lock, hdoc, hver, hcan, hlock, hexp]

/-- Witness for C3, conflict branch: alice attempts to acquire while bob
holds a live lock expiring at 90; the call reports holder 2 and expiry 90. -/
theorem acquire_lock_existing_lock_cases_witness :
    acquire_lock locked_db alice 50 "fresh" 10 100 30 none 8 =
      .error (.lockConflict 2 90) :=
  (acquire_lock_existing_lock_cases locked_db alice 50 "fresh" 10 100 30 8 none
    doc1 base_version bob_lock (by decide) (by decide) (by decide) (by decide)).1
    (by decide) (by decide)

/-- C7 counterexample: start from the fresh draft fixture (lock_version 0),
perform nine accepted manual saves, then a sequence of accepted autosaves.
The first autosave of that sequence already fires the audit side-effect (its
bumped lock_version is 10), and the tenth does not (its bumped lock_version
is 19): the modulus is taken of the shared accepted-save counter, not of a
per-sequence autosave count, so the side-effect does not fire exactly on
every 10th autosave of the sequence. -/
theorem autosave_audit_counterexample :
    audited_of (save_version_content (fun s => s) ((step_save false)^[9] draft_db) alice 5 10 100
      { content_html := "c", content_hash := none, lock_token := none, is_autosave := true }) =
      some true ∧
    audited_of (save_version_content (fun s => s)
      ((step_save true)^[9] ((step_save false)^[9] draft_db)) alice 5 10 100
      { content_html := "c", content_hash := none, lock_token := none, is_autosave := true }) =
      some false := by
  exact ⟨rfl, rfl⟩

/-- C7 (amended): every accepted manual save fires the audit side-effect; an
accepted autosave fires it iff the bumped lock_version, the counter of ALL
accepted saves of the version (manual and auto), is a multiple of 10. This
coincides with every 10th autosave of an autosave sequence exactly when every
accepted save of the version so far was an autosave. -/
theorem save_audit_policy
    (chash : String → String) (db : DB) (u : User) (now document_id version_id : Nat)
    (sd : DocumentVersionSave) (document : Document) (version : DocumentVersion)
    (hdoc : db.find_document document_id = some document)
    (hver : db.find_version document_id version_id = some version)
    (hedit : can_edit_version u document version = true)
    (hgate : edit_lock_gate (db.find_lock version_id) u sd now = none)
    (hocc : (truthy sd.content_hash && !(version.content_hash == sd.content_hash)) = false) :
    save_version_content chash db u now document_id version_id sd =
      .ok (save_apply chash db now document_id version_id sd.content_html version,
        saved_version chash now sd.content_html version,
        save_audited sd.is_autosave (version.lock_version + 1)) ∧
    save_audited false (version.lock_version + 1) = true ∧
    save_audited true (version.lock_version + 1) = ((version.lock_version + 1) % 10 == 0) := by
  refine ⟨?_, rfl, by simp [save_audited]⟩
  simp [save_version_content, hdoc, hver, hedit, hgate, hocc, saved_version, save_audited]

/-- Witness for the amended C7: an accepted autosave with bumped lock_version
1 is not audited (1 is not a multiple of 10). -/
theorem save_audit_policy_witness :
    save_version_content (fun s => s) draft_db alice 5 10 100
      { content_html := "c", content_hash := none, lock_token := none, is_autosave := true } =
      .ok (save_apply (fun s => s) draft_db 5 10 100 "c" base_version,
        saved_version (fun s => s) 5 "c" base_version,
        save_audited true (base_version.lock_version + 1)) :=
  (save_audit_policy (fun s => s) draft_db alice 5 10 100
    { content_html := "c", content_hash := none, lock_token := none, is_autosave := true }
    doc1 base_version (by decide) (by decide) (by decide) (by decide) (by decide)).1

/-- When the e-signature, admin, lookup, view and status gates all pass,
publish_version commits publish_apply. -/
theorem publish_version_success_eq
    (db : DB) (u : User) (pw : String) (now document_id version_id : Nat) (eff : Option Nat)
    (document : Document) (version : DocumentVersion)
    (hpw : verify_password pw u.stored_credential = true)
    (hadmin : u.is_admin = true)
    (hdoc : db.find_document document_id = some document)
    (hver : db.find_version document_id version_id = some version)
    (hviewed : has_user_viewed_content db u.id version_id = true)
    (happr : version.status = VersionStatus.approved) :
    publish_version db u pw now document_id version_id eff =
      .ok (publish_apply db now document_id version_id version u.id eff) := by
  simp [publish_version, verify_esignature, hpw, hadmin, hdoc, hver, hviewed, happr]

/-- The row found by find_version carries the looked-up ids. -/
theorem find_version_ids (db : DB) (document_id version_id : Nat) (version : DocumentVersion)
    (hver : db.find_version document_id version_id = some version) :
    version.id = version_id ∧ version.document_id = document_id ∧ version ∈ db.versions := by
  have hv' : db.versions.find? (fun v => v.id == version_id && v.document_id == document_id)
      = some version := hver
  have hp := List.find?_some hv'
  have hmem := List.mem_of_find?_eq_some hv'
  simp at hp
  exact ⟨hp.1, hp.2, hmem⟩

/-- When some list element satisfies p, the constant replacement appears in
update_first. -/
theorem mem_update_first_const (p : α → Bool) (c : α) {l : List α} {x : α}
    (hx : x ∈ l) (hpx : p x = true) : c ∈ update_first p (fun _ => c) l := by
  induction l with
  | nil => cases hx
  | cons y ys ih =>
    by_cases hy : p y = true
    · simp only [update_first, if_pos hy]
      exact List.mem_cons_self c ys
    · cases List.mem_cons.mp hx with
      | inl h => subst h; exact absurd hpx hy
      | inr h =>
        simp only [update_first, if_neg hy, List.mem_cons]
        exact Or.inr (ih h)

/-- C1: after a successful publish, the published version is Effective with
is_latest true; every version of the document that was Effective before the
call is present afterwards as its make_obsolete image, i.e. Obsolete with
obsolete_date stamped, replaced_by_version_id pointing at the published
version, and is_latest cleared; and, row ids being unique, at most one
version of the document is Effective in the committed store. -/
theorem publish_obsolescence_cascade
    (db : DB) (u : User) (pw : String) (now document_id version_id : Nat) (eff : Option Nat)
    (document : Document) (version : DocumentVersion)
    (hpw : verify_password pw u.stored_credential = true)
    (hadmin : u.is_admin = true)
    (hdoc : db.find_document document_id = some document)
    (hver : db.find_version document_id version_id = some version)
    (hviewed : has_user_viewed_content db u.id version_id = true)
    (happr : version.status = VersionStatus.approved)
    (hids : (db.versions.map (fun v => v.id)).Nodup) :
    publish_version db u pw now document_id version_id eff =
      .ok (publish_apply db now document_id version_id version u.id eff) ∧
    (publish_apply db now document_id version_id version u.id eff).2 =
      make_published now u.id eff version ∧
    (make_published now u.id eff version).status = VersionStatus.effective ∧
    (make_published now u.id eff version).is_latest = true ∧
    version.id = version_id ∧
    make_published now u.id eff version ∈
      (publish_apply db now document_id version_id version u.id eff).1.versions ∧
    (∀ v ∈ db.versions, v.document_id = document_id → v.status = VersionStatus.effective →
      v.id ≠ version_id →
      make_obsolete now version.id v ∈
        (publish_apply db now document_id version_id version u.id eff).1.versions) ∧
    (∀ v : DocumentVersion,
      (make_obsolete now version.id v).status = VersionStatus.obsolete ∧
      (make_obsolete now version.id v).obsolete_date = some now ∧
      (make_obsolete now version.id v).replaced_by_version_id = some version.id ∧
      (make_obsolete now version.id v).is_latest = false) ∧
    (publish_apply db now document_id version_id version u.id eff).1.versions.countP
      (fun v => v.document_id == document_id && v.status == VersionStatus.effective) ≤ 1 := by
  obtain ⟨hid, hdid, hmem⟩ := find_version_ids db document_id version_id version hver
  have hcount_id : db.versions.countP (fun v => v.id == version_id) ≤ 1 :=
    countP_le_one_of_nodup_map (fun v => v.id) db.versions hids version_id
  have hcountP : db.versions.countP
      (fun v => v.id == version_id && v.document_id == document_id) ≤ 1 := by
    refine le_trans (List.countP_mono_left ?_) hcount_id
    intro x _ hx
    simp only [Bool.and_eq_true] at hx
    exact hx.1
  have hcount1 : (db.versions.map (fun v =>
      if prev_effective document_id version_id v then make_obsolete now version.id v else v)).countP
      (fun v => v.id == version_id && v.document_id == document_id) ≤ 1 := by
    rw [List.countP_map]
    refine le_trans (List.countP_mono_left ?_) hcountP
    intro x _ hx
    by_cases hpe : prev_effective document_id version_id x = true
    · simpa [Function.comp, hpe, make_obsolete] using hx
    · have hpe0 : prev_effective document_id version_id x = false := by simpa using hpe
      simpa [Function.comp, hpe0] using hx
  refine ⟨publish_version_success_eq db u pw now document_id version_id eff document version
      hpw hadmin hdoc hver hviewed happr, rfl, rfl, rfl, hid, ?_, ?_,
      fun v => ⟨rfl, rfl, rfl, rfl⟩, ?_⟩
  · simp only [publish_apply]
    have hmem1 : version ∈ db.versions.map (fun v =>
        if prev_effective document_id version_id v then make_obsolete now version.id v else v) :=
      List.mem_map.mpr ⟨version, hmem, by simp [prev_effective, hid]⟩
    exact mem_update_first_const _ _ hmem1 (by simp [hid, hdid])
  · intro v hv hvdoc hveff hvne
    have hprev : prev_effective document_id version_id v = true := by
      simp [prev_effective, hvdoc, hveff, hvne]
    have h1 : make_obsolete now version.id v ∈ db.versions.map (fun w =>
        if prev_effective document_id version_id w then make_obsolete now version.id w else w) := by
      refine List.mem_map.mpr ⟨v, hv, ?_⟩
      simp [hprev]
    have hPf : (fun x : DocumentVersion =>
        x.id == version_id && x.document_id == document_id) (make_obsolete now version.id v) =
        false := by
      simp [make_obsolete, hvne]
    simp only [publish_apply]
    exact mem_update_first_of_neg _ _ h1 hPf
  · simp only [publish_apply]
    rw [update_first_eq_map _ _ _ hcount1, List.countP_map]
    refine le_trans (List.countP_mono_left ?_) hcount1
    intro x hx hQ
    obtain ⟨w, hw, rfl⟩ := List.mem_map.mp hx
    simp only [Function.comp] at hQ
    by_cases hpe : prev_effective document_id version_id w = true
    · rw [if_pos hpe] at hQ ⊢
      by_cases hP : ((make_obsolete now version.id w).id == version_id &&
          (make_obsolete now version.id w).document_id == document_id) = true
      · exact hP
      · exfalso
        rw [if_neg (by simpa using hP)] at hQ
        simp [make_obsolete] at hQ
    · rw [if_neg hpe] at hQ ⊢
      have hpe0 : prev_effective document_id version_id w = false := by simpa using hpe
      by_cases hP : (w.id == version_id && w.document_id == document_id) = true
      · exact hP
      · exfalso
        rw [if_neg (by simpa using hP)] at hQ
        simp only [Bool.and_eq_true] at hQ hP
        have hwdoc : w.document_id = document_id := by simpa using hQ.1
        have hweff : w.status = VersionStatus.effective := by simpa using hQ.2
        have hwid : w.id = version_id := by
          by_cases hb : w.id = version_id
          · exact hb
          · exfalso
            have : prev_effective document_id version_id w = true := by
              simp [prev_effective, hwdoc, hweff, hb]
            rw [this] at hpe0
            cases hpe0
        exact hP ⟨by simpa using hwid, by simpa using hwdoc⟩

/-- Witness for C1: dana publishes approved version 100 of document 10; the
previously Effective version 90 appears afterwards as its obsolete image and
at most one row of the document is Effective. -/
theorem publish_obsolescence_cascade_witness :
    publish_version publish_db dana "pwd" 77 10 100 (some 1000) =
      .ok (publish_apply publish_db 77 10 100 approved_version 4 (some 1000)) ∧
    make_obsolete 77 100 old_effective_version ∈
      (publish_apply publish_db 77 10 100 approved_version 4 (some 1000)).1.versions ∧
    (publish_apply publish_db 77 10 100 approved_version 4 (some 1000)).1.versions.countP
      (fun v => v.document_id == 10 && v.status == VersionStatus.effective) ≤ 1 := by
  have h := publish_obsolescence_cascade publish_db dana "pwd" 77 10 100 (some 1000)
    doc1 approved_version (by decide) (by decide) (by decide) (by decide) (by decide)
    (by decide) (by decide)
  exact ⟨h.1, h.2.2.2.2.2.2.1 old_effective_version (by decide) (by decide) (by decide) (by decide),
    h.2.2.2.2.2.2.2.2⟩

/-- C8: on a successful publish, publish_version rewrites the version_string
by publish_version_string: a truthy string with the pre-effective prefix
"v0." becomes exactly "v1.0", and any other string (or a missing one) is left
unchanged, exactly as computed at creation time. -/
theorem publish_version_string_rewrite
    (db : DB) (u : User) (pw : String) (now document_id version_id : Nat) (eff : Option Nat)
    (document : Document) (version : DocumentVersion)
    (hpw : verify_password pw u.stored_credential = true)
    (hadmin : u.is_admin = true)
    (hdoc : db.find_document document_id = some document)
    (hver : db.find_version document_id version_id = some version)
    (hviewed : has_user_viewed_content db u.id version_id = true)
    (happr : version.status = VersionStatus.approved) :
    publish_version db u pw now document_id version_id eff =
      .ok (publish_apply db now document_id version_id version u.id eff) ∧
    (publish_apply db now document_id version_id version u.id eff).2.version_string =
      publish_version_string version.version_string ∧
    (∀ s : String, starts_with s "v0." = true →
      publish_version_string (some s) = some "v1.0") ∧
    (∀ s : String, starts_with s "v0." = false →
      publish_version_string (some s) = some s) ∧
    publish_version_string none = none := by
  refine ⟨publish_version_success_eq db u pw now document_id version_id eff document version
      hpw hadmin hdoc hver hviewed happr, rfl, ?_, ?_, rfl⟩
  · intro s hs
    have hne : (s == "") = false := by
      by_cases h0 : s = ""
      · subst h0; exact absurd hs (by decide)
      · simpa using h0
    simp [publish_version_string, truthy, hne, hs]
  · intro s hs
    by_cases h0 : s = ""
    · subst h0
      simp [publish_version_string, truthy]
    · have hne : (s == "") = false := by simpa using h0
      simp [publish_version_string, truthy, hne, hs]

/-- Witness for C8: publishing version 100 whose string is v0.3 yields
exactly v1.0. -/
theorem publish_version_string_rewrite_witness :
    publish_version publish_db dana "pwd" 78 10 100 none =
      .ok (publish_apply publish_db 78 10 100 approved_version 4 none) ∧
    publish_version_string (some "v0.3") = some "v1.0" := by
  have h := publish_version_string_rewrite publish_db dana "pwd" 78 10 100 none doc1
    approved_version (by decide) (by decide) (by decide) (by decide) (by decide) (by decide)
  exact ⟨h.1, h.2.2.1 "v0.3" (by decide)⟩

end DMS
